import Mathlib

/-!
Verification of the pyMobile campus-navigation engine.

This file shallowly embeds the navigation engine of the repository
(`app/navigation/navigator.py`, class `CampusNavigator`) and the route
query of the store (`app/data/database.py`, `DatabaseManager.get_route`)
into Lean, and proves the specified properties about the embedding.

Modelling conventions:
- Python floats are modelled as real numbers `ℝ` (the claims speak of
  exact arithmetic "within floating-point tolerance").
- Calls to the external announcer (`AccessibilityManager`), to the GPS
  driver and to the history store are modelled as an emitted list of
  `Event`s, in the order the Python code performs them.
- The module-level flag `GPS_AVAILABLE` (set by an import probe) is an
  explicit boolean parameter `gps` of every operation that reads it.
- `time.time()` is an explicit real parameter where the code calls it.
-/

namespace PyMobile

/-! ## Geometry (`CampusNavigator._calculate_distance`) -/

/-- `math.radians`: degree-to-radian conversion. -/
noncomputable def radians (deg : ℝ) : ℝ := deg * Real.pi / 180

/-- `math.atan2 y x`: the two-argument arctangent, case split on the
quadrant exactly as specified for the C library function. -/
noncomputable def atan2 (y x : ℝ) : ℝ :=
  if 0 < x then Real.arctan (y / x)
  else if x < 0 ∧ 0 ≤ y then Real.arctan (y / x) + Real.pi
  else if x < 0 ∧ y < 0 then Real.arctan (y / x) - Real.pi
  else if x = 0 ∧ 0 < y then Real.pi / 2
  else if x = 0 ∧ y < 0 then -(Real.pi / 2)
  else 0

/-- `CampusNavigator._calculate_distance(lat1, lng1, lat2, lng2)`:
haversine distance in metres, Earth radius 6 371 000 m
(navigator.py lines 204-218). -/
noncomputable def calculate_distance (lat1 lng1 lat2 lng2 : ℝ) : ℝ :=
  let R : ℝ := 6371000
  let lat1_rad := radians lat1
  let lat2_rad := radians lat2
  let delta_lat := radians (lat2 - lat1)
  let delta_lng := radians (lng2 - lng1)
  let a := Real.sin (delta_lat / 2) ^ 2 +
    Real.cos lat1_rad * Real.cos lat2_rad * Real.sin (delta_lng / 2) ^ 2
  let c := 2 * atan2 (Real.sqrt a) (Real.sqrt (1 - a))
  R * c

/-- The haversine of an angle, `hav θ = sin²(θ/2)`. -/
noncomputable def hav (θ : ℝ) : ℝ := Real.sin (θ / 2) ^ 2

/-- Modelled from the spec: "the haversine formula with Earth radius R",
stated on radian inputs in its textbook form
`d = 2 R · atan2(√h, √(1−h))` with
`h = hav(φ₂−φ₁) + cos φ₁ · cos φ₂ · hav(λ₂−λ₁)`. -/
noncomputable def haversine_formula (R φ1 lam1 φ2 lam2 : ℝ) : ℝ :=
  let h := hav (φ2 - φ1) + Real.cos φ1 * Real.cos φ2 * hav (lam2 - lam1)
  2 * R * atan2 (Real.sqrt h) (Real.sqrt (1 - h))

/-! ## Data model -/

/-- The `Location` dataclass (navigator.py lines 24-33).  Database rows of
the `locations` table carry exactly these fields, so the same structure
models both the row dict and the dataclass. -/
structure Location where
  id : Int
  name : String
  category : String
  latitude : ℝ
  longitude : ℝ
  description : String
  accessible_features : String

/-- One waypoint dict of a route's `waypoints` JSON list: keys `lat`,
`lng` and (optionally, read with `.get('instruction', '继续前进')`)
`instruction`. -/
structure Waypoint where
  lat : ℝ
  lng : ℝ
  instruction : Option String

/-- A row of the `routes` table (database.py lines 54-68), with the
`waypoints` JSON column already decoded. -/
structure RouteRow where
  id : Int
  name : String
  start_location_id : Int
  end_location_id : Int
  waypoints : List Waypoint
  distance : ℝ
  estimated_time : Int
  is_accessible : Bool

/-- The `current_location` dict
`{latitude, longitude, accuracy, timestamp}` (navigator.py lines 83-88). -/
structure Position where
  latitude : ℝ
  longitude : ℝ
  accuracy : ℝ
  timestamp : ℝ

/-- The mutable session fields of `CampusNavigator` (navigator.py lines
53-57) that the navigation operations read and write. -/
structure NavState where
  is_navigating : Bool
  current_route : Option RouteRow
  current_instruction_index : Nat
  current_location : Option Position
  destination : Option Location

/-- Externally observable effects: announcer calls, sound cues, history
writes, GPS driver control, and the synthetic driver's timer delay. -/
inductive Event where
  | speak (text : String)
  | play_sound (name : String)
  | announce_instruction (instruction : String) (dist : ℝ)
  | announce_arrival (dest : String)
  | announce_error (msg : String)
  | add_history (start_loc end_loc route_name : String)
  | gps_start
  | gps_stop
  | timer_delay (seconds : ℝ)

/-- Recognise an instruction announcement among the emitted events. -/
def Event.isInstruction : Event → Bool
  | .announce_instruction _ _ => true
  | _ => false

/-- Recognise a `speak` call among the emitted events. -/
def Event.isSpeak : Event → Bool
  | .speak _ => true
  | _ => false

/-- Number of instruction announcements in an event list. -/
def countInstructions (evs : List Event) : Nat :=
  (evs.filter Event.isInstruction).length

/-- The texts of the instruction announcements, in emission order. -/
def instr_texts (evs : List Event) : List String :=
  evs.filterMap fun e =>
    match e with
    | .announce_instruction s _ => some s
    | _ => none

/-! ## Route store (`DatabaseManager.get_route`, database.py lines 139-153)

The SQL query
`SELECT * FROM routes WHERE start_location_id = ? AND end_location_id = ?
 ORDER BY is_accessible DESC, distance ASC LIMIT 1`
is modelled over the table contents `routes : List RouteRow` as: filter by
the pair, sort by the ORDER BY key, take the head. -/

/-- The ORDER BY key of `get_route`: `is_accessible DESC, distance ASC`
(in SQLite a stored boolean is 0/1, so DESC puts accessible rows first). -/
noncomputable def route_le (a b : RouteRow) : Bool :=
  if a.is_accessible = b.is_accessible then a.distance ≤ b.distance
  else a.is_accessible

/-- `DatabaseManager.get_route(start_location_id, end_location_id)`. -/
noncomputable def get_route (routes : List RouteRow) (s e : Int) : Option RouteRow :=
  let matching := routes.filter fun r =>
    r.start_location_id = s ∧ r.end_location_id = e
  (matching.mergeSort route_le).head?

/-! ## Navigator operations (`CampusNavigator`)

The database snapshot `locations : List Location` models what
`db_manager.get_locations_by_category()` returns, and
`routes : List RouteRow` the contents of the `routes` table. -/

/-- Default instruction text, `waypoint.get('instruction', '继续前进')`. -/
def instruction_text (w : Waypoint) : String := w.instruction.getD "继续前进"

/-- The distance from the query point to a candidate location,
`self._calculate_distance(lat, lng, loc_data['latitude'],
loc_data['longitude'])` (navigator.py line 189). -/
noncomputable def loc_dist (lat lng : ℝ) (loc : Location) : ℝ :=
  calculate_distance lat lng loc.latitude loc.longitude

/-- `CampusNavigator._find_nearest_location` inner loop: scan `rest`
keeping the closest candidate seen so far (`best.1` is the running
`min_distance`, `best.2` the running `nearest_location`); the strict `<`
keeps the first-encountered candidate on ties (navigator.py lines
185-200). -/
noncomputable def find_nearest_go (lat lng : ℝ) (best : ℝ × Location) :
    List Location → ℝ × Location
  | [] => best
  | loc :: rest =>
    let d := loc_dist lat lng loc
    if d < best.1 then find_nearest_go lat lng (d, loc) rest
    else find_nearest_go lat lng best rest

/-- `CampusNavigator._find_nearest_location(lat, lng)` (navigator.py lines
179-202).  `min_distance` starts at `float('inf')`, so the first candidate
always replaces the initial value; the loop is therefore the scan of the
tail started from the first candidate. -/
noncomputable def find_nearest_location (locations : List Location) (lat lng : ℝ) :
    Option Location :=
  match locations with
  | [] => none
  | loc :: rest =>
    some (find_nearest_go lat lng (loc_dist lat lng loc, loc) rest).2

/-- `CampusNavigator._on_arrival` (navigator.py lines 299-317): clear the
navigating flag, announce arrival with the destination's name, record one
history entry (`self.db_manager` is always set, so the guard on it always
passes), and stop the GPS when available.  The Python code would raise if
`destination` were `None`; that point is unreachable from the code's call
paths, and the model announces the empty name there. -/
noncomputable def on_arrival (gps : Bool) (st : NavState) : NavState × List Event :=
  let destName := match st.destination with
    | some d => d.name
    | none => ""
  let routeName := match st.current_route with
    | some r => r.name
    | none => "未知路径"
  ({st with is_navigating := false},
    [Event.announce_arrival destName,
     Event.add_history "当前位置" destName routeName] ++
    (if gps then [Event.gps_stop] else []))

/-- `instruction_distance_threshold` (navigator.py line 67). -/
def instruction_distance_threshold : ℝ := 20

/-- `CampusNavigator._check_navigation_progress` (navigator.py lines
269-297).  `pos` is the value of `self.current_location`, which every
caller has just set (the Python code would raise if it were `None`).
`waypoints.get? index = none` is exactly the guard
`current_instruction_index >= len(waypoints)`. -/
noncomputable def check_navigation_progress (gps : Bool) (st : NavState)
    (pos : Position) : NavState × List Event :=
  if ¬st.is_navigating then (st, [])
  else match st.current_route with
  | none => (st, [])
  | some route =>
    match route.waypoints.get? st.current_instruction_index with
    | none => (st, [])
    | some w =>
      let d := calculate_distance pos.latitude pos.longitude w.lat w.lng
      if d ≤ instruction_distance_threshold then
        let ev := Event.announce_instruction (instruction_text w) d
        if d ≤ 5 then
          let st' := {st with
            current_instruction_index := st.current_instruction_index + 1}
          if route.waypoints.length ≤ st'.current_instruction_index then
            let r := on_arrival gps st'
            (r.1, ev :: r.2)
          else (st', [ev])
        else (st, [ev])
      else (st, [])

/-- `CampusNavigator._on_location_update` for a report carrying `lat` and
`lon` (navigator.py lines 80-93): store the sample as the current
location, then run the progress check when navigating. -/
noncomputable def on_location_update (gps : Bool) (st : NavState)
    (lat lng accuracy t : ℝ) : NavState × List Event :=
  let pos : Position := ⟨lat, lng, accuracy, t⟩
  let st' := {st with current_location := some pos}
  if st'.is_navigating then check_navigation_progress gps st' pos
  else (st', [])

/-- A stream of live position reports fed to the GPS callback in order,
collecting the emitted events. -/
noncomputable def run_updates (gps : Bool) (st : NavState) :
    List Position → NavState × List Event
  | [] => (st, [])
  | p :: ps =>
    let r := on_location_update gps st p.latitude p.longitude p.accuracy p.timestamp
    let r' := run_updates gps r.1 ps
    (r'.1, r.2 ++ r'.2)

/-- `CampusNavigator.stop_navigation` (navigator.py lines 319-330). -/
noncomputable def stop_navigation (gps : Bool) (st : NavState) : NavState × List Event :=
  if st.is_navigating then
    ({st with is_navigating := false},
      [Event.speak "导航已停止"] ++ (if gps then [Event.gps_stop] else []))
  else (st, [])

/-- The body of `update_instruction` in
`CampusNavigator._simulate_navigation` (navigator.py lines 238-264),
recursing over the waypoints not yet played instead of over the numeric
`index` (`remaining = []` is exactly `index >= total_instructions`, and
`rest = []` is exactly `index == total_instructions - 1`).  Each step
announces the waypoint's instruction with the distance from the current
synthetic position, then moves the synthetic position onto the waypoint
(in-place dict update: `accuracy`/`timestamp` are kept); between steps the
code schedules the next step on a 3-second timer, modelled as a
`timer_delay` event.  The Python code would raise if `current_location`
were `None`; the start path always sets it. -/
noncomputable def update_instruction (gps : Bool) (st : NavState) :
    List Waypoint → NavState × List Event
  | [] => (st, [])
  | w :: rest =>
    if ¬st.is_navigating then (st, [])
    else match st.current_location with
    | none => (st, [])
    | some pos =>
      let d := calculate_distance pos.latitude pos.longitude w.lat w.lng
      let ev := Event.announce_instruction (instruction_text w) d
      let pos' : Position := {pos with latitude := w.lat, longitude := w.lng}
      let st' := {st with current_location := some pos'}
      if rest.isEmpty then
        let r := on_arrival gps st'
        (r.1, ev :: r.2)
      else
        let r := update_instruction gps st' rest
        (r.1, ev :: Event.timer_delay 3 :: r.2)

/-- `CampusNavigator._simulate_navigation` (navigator.py lines 230-267):
guard, then play the route's waypoint list from the top. -/
noncomputable def simulate_navigation (gps : Bool) (st : NavState) :
    NavState × List Event :=
  match st.current_route with
  | none => (st, [])
  | some route =>
    if ¬st.is_navigating then (st, [])
    else update_instruction gps st route.waypoints

/-- `CampusNavigator._get_simulated_current_location` (navigator.py lines
220-228); `t` is the value of `time.time()`. -/
def simulated_current_location (t : ℝ) : Position :=
  ⟨39.9040, 116.4070, 5, t⟩

/-- The position `_start_navigation_to_destination` resolves before the
nearest-location lookup: the current location, or the fixed simulated one
when none has been reported yet (navigator.py lines 143-144). -/
def resolved_position (t : ℝ) (st : NavState) : Position :=
  match st.current_location with
  | some p => p
  | none => simulated_current_location t

/-- `CampusNavigator._start_navigation_to_destination(destination)`
(navigator.py lines 138-177).  When the GPS is available the driver start
succeeds in the model (the `except` fallback to the synthetic driver is a
driver-attach failure, outside the verified claims); without GPS the
synthetic driver runs inline. -/
noncomputable def start_navigation_to_destination (gps : Bool)
    (locations : List Location) (routes : List RouteRow) (t : ℝ)
    (st : NavState) (destination : Location) : NavState × List Event :=
  let pos := resolved_position t st
  let st1 := {st with destination := some destination,
                      current_location := some pos}
  match find_nearest_location locations pos.latitude pos.longitude with
  | none => (st1, [Event.announce_error "无法确定起始位置"])
  | some start_loc =>
    match get_route routes start_loc.id destination.id with
    | none =>
      (st1, [Event.announce_error ("没有找到到" ++ destination.name ++ "的路径")])
    | some route =>
      let st2 := {st1 with current_route := some route,
                           current_instruction_index := 0,
                           is_navigating := true}
      let evs := [Event.speak ("开始导航到" ++ destination.name),
                  Event.play_sound "navigation_start"]
      if gps then (st2, evs ++ [Event.gps_start])
      else
        let r := simulate_navigation gps st2
        (r.1, evs ++ r.2)

/-- `CampusNavigator.get_nearby_locations(radius)` (navigator.py lines
332-362): empty when no position is known; otherwise collect
`(location, distance)` pairs for every known location within `radius`,
sort them ascending by distance (Python's stable `sort` with
`key=lambda x: x[1]`), and return only the locations. -/
noncomputable def get_nearby_locations (locations : List Location)
    (st : NavState) (radius : ℝ) : List Location :=
  match st.current_location with
  | none => []
  | some pos =>
    let nearby := locations.filterMap fun loc =>
      let d := loc_dist pos.latitude pos.longitude loc
      if d ≤ radius then some (loc, d) else none
    (nearby.mergeSort fun a b => a.2 ≤ b.2).map Prod.fst

/-- The dict returned by `CampusNavigator.get_navigation_status`
(navigator.py lines 381-389). -/
structure NavStatus where
  is_navigating : Bool
  destination : Option String
  current_instruction_index : Nat
  total_instructions : Nat
  current_location : Option Position

/-- `CampusNavigator.get_navigation_status()`. -/
def get_navigation_status (st : NavState) : NavStatus :=
  { is_navigating := st.is_navigating
    destination := st.destination.map Location.name
    current_instruction_index := st.current_instruction_index
    total_instructions := match st.current_route with
      | some r => r.waypoints.length
      | none => 0
    current_location := st.current_location }

end PyMobile

namespace PyMobile

/-! ## Geometry lemmas -/

theorem radians_sub (a b : ℝ) : radians (a - b) = radians a - radians b := by
  unfold radians; ring

theorem radians_neg_swap (a b : ℝ) : radians (a - b) = -(radians (b - a)) := by
  unfold radians; ring

theorem atan2_zero_one : atan2 0 1 = 0 := by
  unfold atan2
  rw [if_pos one_pos]
  simp [Real.arctan_zero]

theorem calculate_distance_self (lat lng : ℝ) :
    calculate_distance lat lng lat lng = 0 := by
  simp only [calculate_distance]
  rw [sub_self, sub_self]
  simp only [radians, zero_mul, zero_div, Real.sin_zero]
  norm_num [atan2_zero_one]

theorem calculate_distance_symm (lat1 lng1 lat2 lng2 : ℝ) :
    calculate_distance lat1 lng1 lat2 lng2 = calculate_distance lat2 lng2 lat1 lng1 := by
  simp only [calculate_distance]
  rw [radians_neg_swap lat1 lat2, radians_neg_swap lng1 lng2]
  simp only [neg_div, Real.sin_neg, neg_sq]
  rw [mul_comm (Real.cos (radians lat2)) (Real.cos (radians lat1))]

theorem calculate_distance_eq_haversine (lat1 lng1 lat2 lng2 : ℝ) :
    calculate_distance lat1 lng1 lat2 lng2 =
      haversine_formula 6371000 (radians lat1) (radians lng1)
        (radians lat2) (radians lng2) := by
  simp only [calculate_distance, haversine_formula, hav]
  rw [radians_sub lat2 lat1, radians_sub lng2 lng1]
  ring

/-- Claim C4: `_calculate_distance` is the haversine formula with Earth
radius 6 371 000 m, it is symmetric in its two coordinates, and it is zero
on identical coordinates. -/
theorem geometry_distance_spec :
    (∀ lat1 lng1 lat2 lng2 : ℝ,
      calculate_distance lat1 lng1 lat2 lng2 =
        haversine_formula 6371000 (radians lat1) (radians lng1)
          (radians lat2) (radians lng2)) ∧
    (∀ lat1 lng1 lat2 lng2 : ℝ,
      calculate_distance lat1 lng1 lat2 lng2 =
        calculate_distance lat2 lng2 lat1 lng1) ∧
    (∀ lat lng : ℝ, calculate_distance lat lng lat lng = 0) :=
  ⟨calculate_distance_eq_haversine, calculate_distance_symm, calculate_distance_self⟩

end PyMobile

namespace PyMobile

/-! ## Nearest-location lookup (claim C5) -/

theorem find_nearest_go_spec (lat lng : ℝ) (rest : List Location) :
    ∀ (bd : ℝ) (bl : Location) (m : ℝ) (l : Location),
      bd = loc_dist lat lng bl →
      find_nearest_go lat lng (bd, bl) rest = (m, l) →
      m = loc_dist lat lng l ∧
      ((m = bd ∧ l = bl ∧ ∀ x ∈ rest, bd ≤ loc_dist lat lng x) ∨
        (∃ pre post, rest = pre ++ l :: post ∧ m < bd ∧
          (∀ x ∈ pre, m < loc_dist lat lng x) ∧
          (∀ x ∈ post, m ≤ loc_dist lat lng x))) := by
  induction rest with
  | nil =>
    intro bd bl m l hb hgo
    simp only [find_nearest_go, Prod.mk.injEq] at hgo
    refine ⟨by rw [← hgo.1, ← hgo.2, hb], Or.inl ⟨hgo.1.symm, hgo.2.symm, by simp⟩⟩
  | cons loc rest ih =>
    intro bd bl m l hb hgo
    by_cases hd : loc_dist lat lng loc < bd
    · have hstep : find_nearest_go lat lng (bd, bl) (loc :: rest) =
          find_nearest_go lat lng (loc_dist lat lng loc, loc) rest := by
        simp only [find_nearest_go]
        rw [if_pos hd]
      rw [hstep] at hgo
      rcases ih (loc_dist lat lng loc) loc m l rfl hgo with ⟨hm, hrec⟩
      refine ⟨hm, Or.inr ?_⟩
      rcases hrec with ⟨hmd, hl, hall⟩ | ⟨pre, post, hsplit, hlt, hpre, hpost⟩
      · refine ⟨[], rest, by simp [hl], by rw [hmd]; exact hd, by simp, ?_⟩
        intro x hx
        rw [hmd]
        exact hall x hx
      · refine ⟨loc :: pre, post, ?_, lt_trans hlt hd, ?_, hpost⟩
        · rw [List.cons_append]
          exact congrArg (List.cons loc) hsplit
        · intro x hx
          rcases List.mem_cons.mp hx with hx | hx
          · rw [hx]
            exact hlt
          · exact hpre x hx
    · have hstep : find_nearest_go lat lng (bd, bl) (loc :: rest) =
          find_nearest_go lat lng (bd, bl) rest := by
        simp only [find_nearest_go]
        rw [if_neg hd]
      rw [hstep] at hgo
      rcases ih bd bl m l hb hgo with ⟨hm, hrec⟩
      refine ⟨hm, ?_⟩
      rcases hrec with ⟨hmd, hl, hall⟩ | ⟨pre, post, hsplit, hlt, hpre, hpost⟩
      · refine Or.inl ⟨hmd, hl, ?_⟩
        intro x hx
        rcases List.mem_cons.mp hx with hx | hx
        · rw [hx]
          exact not_lt.mp hd
        · exact hall x hx
      · refine Or.inr ⟨loc :: pre, post, ?_, hlt, ?_, hpost⟩
        · rw [List.cons_append]
          exact congrArg (List.cons loc) hsplit
        · intro x hx
          rcases List.mem_cons.mp hx with hx | hx
          · rw [hx]
            exact lt_of_lt_of_le hlt (not_lt.mp hd)
          · exact hpre x hx

theorem find_nearest_location_characterisation (locations : List Location)
    (lat lng : ℝ) (l : Location)
    (h : find_nearest_location locations lat lng = some l) :
    ∃ pre post, locations = pre ++ l :: post ∧
      (∀ x ∈ pre, loc_dist lat lng l < loc_dist lat lng x) ∧
      (∀ x ∈ post, loc_dist lat lng l ≤ loc_dist lat lng x) := by
  match locations with
  | [] => simp [find_nearest_location] at h
  | loc :: rest =>
    rcases hgo : find_nearest_go lat lng (loc_dist lat lng loc, loc) rest with ⟨m, l'⟩
    have hl : l' = l := by
      have := h
      simp only [find_nearest_location, hgo, Option.some.injEq] at this
      exact this
    subst hl
    rcases find_nearest_go_spec lat lng rest (loc_dist lat lng loc) loc m l' rfl hgo
      with ⟨hm, hrec⟩
    rcases hrec with ⟨hmd, hleq, hall⟩ | ⟨pre, post, hsplit, hlt, hpre, hpost⟩
    · refine ⟨[], rest, by simp [hleq], by simp, ?_⟩
      intro x hx
      rw [← hm, hmd]
      exact hall x hx
    · refine ⟨loc :: pre, post, ?_, ?_, ?_⟩
      · rw [List.cons_append]
        exact congrArg (List.cons loc) hsplit
      · intro x hx
        rcases List.mem_cons.mp hx with hx | hx
        · rw [hx, ← hm]
          exact hlt
        · rw [← hm]
          exact hpre x hx
      · intro x hx
        rw [← hm]
        exact hpost x hx

/-- Claim C5: the nearest-location lookup returns `none` exactly on an
empty candidate list; otherwise it returns a candidate at minimum
haversine distance from the query point, ties broken in favour of the
first-encountered candidate (every strictly earlier candidate is strictly
farther); and on a singleton list it returns that candidate. -/
theorem nearest_location_lookup_spec :
    (∀ lat lng : ℝ, find_nearest_location [] lat lng = none) ∧
    (∀ (locations : List Location) (lat lng : ℝ),
      find_nearest_location locations lat lng = none ↔ locations = []) ∧
    (∀ (locations : List Location) (lat lng : ℝ) (l : Location),
      find_nearest_location locations lat lng = some l →
      l ∈ locations ∧
      (∀ x ∈ locations, loc_dist lat lng l ≤ loc_dist lat lng x) ∧
      ∃ pre post, locations = pre ++ l :: post ∧
        (∀ x ∈ pre, loc_dist lat lng l < loc_dist lat lng x) ∧
        (∀ x ∈ post, loc_dist lat lng l ≤ loc_dist lat lng x)) ∧
    (∀ (lat lng : ℝ) (L : Location), find_nearest_location [L] lat lng = some L) := by
  refine ⟨fun lat lng => rfl, ?_, ?_, fun lat lng L => rfl⟩
  · intro locations lat lng
    cases locations with
    | nil => simp [find_nearest_location]
    | cons loc rest => simp [find_nearest_location]
  · intro locations lat lng l h
    rcases find_nearest_location_characterisation locations lat lng l h with
      ⟨pre, post, hsplit, hpre, hpost⟩
    refine ⟨?_, ?_, pre, post, hsplit, hpre, hpost⟩
    · rw [hsplit]
      exact List.mem_append_right pre (List.mem_cons_self l post)
    · intro x hx
      rw [hsplit] at hx
      rcases List.mem_append.mp hx with hx | hx
      · exact le_of_lt (hpre x hx)
      · rcases List.mem_cons.mp hx with hx | hx
        · rw [hx]
        · exact hpost x hx

/-- A sample location used to instantiate hypothesis-bearing theorems. -/
def sampleLoc : Location := ⟨1, "图书馆", "学习设施", 0, 0, "", ""⟩

/-- Witness for claim C5's theorem at the singleton list `[sampleLoc]`. -/
theorem nearest_location_lookup_spec_witness :
    find_nearest_location [sampleLoc] 0 0 = some sampleLoc ∧
    sampleLoc ∈ [sampleLoc] ∧
    (∀ x ∈ [sampleLoc], loc_dist 0 0 sampleLoc ≤ loc_dist 0 0 x) := by
  have h := nearest_location_lookup_spec
  have h1 : find_nearest_location [sampleLoc] 0 0 = some sampleLoc :=
    h.2.2.2 0 0 sampleLoc
  have h2 := h.2.2.1 [sampleLoc] 0 0 sampleLoc h1
  exact ⟨h1, h2.1, h2.2.1⟩

end PyMobile

namespace PyMobile

/-! ## Route selection (claim C8) -/

theorem route_le_refl (a : RouteRow) : route_le a a = true := by
  simp [route_le]

theorem route_le_trans (a b c : RouteRow) (hab : route_le a b = true)
    (hbc : route_le b c = true) : route_le a c = true := by
  simp only [route_le] at *
  cases ha : a.is_accessible <;> cases hb : b.is_accessible <;>
    cases hc : c.is_accessible <;> simp_all [decide_eq_true_eq] <;>
    exact le_trans hab hbc

theorem route_le_total (a b : RouteRow) :
    (route_le a b || route_le b a) = true := by
  simp only [route_le]
  cases ha : a.is_accessible <;> cases hb : b.is_accessible <;>
    simp_all [decide_eq_true_eq] <;> exact le_total a.distance b.distance

theorem route_le_elim (r r' : RouteRow) (h : route_le r r' = true) :
    (r'.is_accessible = true → r.is_accessible = true) ∧
    (r.is_accessible = r'.is_accessible → r.distance ≤ r'.distance) := by
  simp only [route_le] at h
  by_cases hacc : r.is_accessible = r'.is_accessible
  · rw [if_pos hacc] at h
    exact ⟨fun h' => hacc.trans h', fun _ => by simpa using h⟩
  · rw [if_neg hacc] at h
    exact ⟨fun _ => h, fun h' => absurd h' hacc⟩

/-- Claim C8: `get_route` returns `none` exactly when no stored route
matches the `(start, end)` pair; otherwise the returned route matches the
pair and is preferred to every other matching route: it is accessible
whenever any matching route is, and among matching routes of equal
accessibility it has minimal distance. -/
theorem route_selection_spec :
    ∀ (routes : List RouteRow) (s e : Int),
      (get_route routes s e = none ↔
        ∀ r ∈ routes, ¬(r.start_location_id = s ∧ r.end_location_id = e)) ∧
      (∀ r, get_route routes s e = some r →
        (r.start_location_id = s ∧ r.end_location_id = e) ∧
        ∀ r' ∈ routes, r'.start_location_id = s → r'.end_location_id = e →
          (r'.is_accessible = true → r.is_accessible = true) ∧
          (r.is_accessible = r'.is_accessible → r.distance ≤ r'.distance)) := by
  intro routes s e
  set matching := routes.filter
    (fun r => decide (r.start_location_id = s ∧ r.end_location_id = e)) with hm
  have hperm : (matching.mergeSort route_le).Perm matching :=
    List.mergeSort_perm matching route_le
  constructor
  · rw [show get_route routes s e = (matching.mergeSort route_le).head? from rfl,
      List.head?_eq_none_iff]
    constructor
    · intro h
      have : matching = [] := by
        have := hperm.length_eq
        rw [h] at this
        exact List.eq_nil_of_length_eq_zero this.symm
      rw [hm] at this
      intro r hr
      have := List.filter_eq_nil_iff.mp this r hr
      simpa using this
    · intro h
      have : matching = [] := by
        rw [hm]
        apply List.filter_eq_nil_iff.mpr
        intro r hr
        simpa using h r hr
      rw [this, List.mergeSort_nil]
  · intro r hr
    have hr' : (matching.mergeSort route_le).head? = some r := hr
    obtain ⟨tail, htail⟩ : ∃ tail, matching.mergeSort route_le = r :: tail := by
      cases hms : matching.mergeSort route_le with
      | nil => rw [hms] at hr'; simp at hr'
      | cons x xs =>
        rw [hms] at hr'
        simp only [List.head?_cons, Option.some.injEq] at hr'
        exact ⟨xs, by rw [hr']⟩
    have hrmem : r ∈ matching := by
      have : r ∈ matching.mergeSort route_le := by
        rw [htail]
        exact List.mem_cons_self r tail
      exact hperm.mem_iff.mp this
    have hrp : r.start_location_id = s ∧ r.end_location_id = e := by
      have := List.of_mem_filter hrmem
      simpa using this
    refine ⟨hrp, ?_⟩
    intro r' hr'mem hs he
    have hr'matching : r' ∈ matching := by
      rw [hm]
      exact List.mem_filter.mpr ⟨hr'mem, by simp [hs, he]⟩
    have hr'sorted : r' ∈ r :: tail := by
      rw [← htail]
      exact hperm.mem_iff.mpr hr'matching
    rcases List.mem_cons.mp hr'sorted with heq | htl
    · subst heq
      exact ⟨fun h => h, fun _ => le_refl _⟩
    · have hpw : List.Pairwise (fun a b => route_le a b = true)
          (matching.mergeSort route_le) :=
        List.sorted_mergeSort route_le_trans route_le_total matching
      rw [htail] at hpw
      have := (List.pairwise_cons.mp hpw).1 r' htl
      exact route_le_elim r r' this

end PyMobile

namespace PyMobile

/-! ## Sample data for witnesses (the sample route of
`DatabaseManager.initialize_sample_data`, database.py lines 211-218) -/

def sampleW1 : Waypoint := ⟨39.9042, 116.4074, some "从主教学楼出发"⟩

def sampleW2 : Waypoint := ⟨39.9047, 116.4079, some "向北直行100米"⟩

def sampleW3 : Waypoint := ⟨39.9052, 116.4084, some "到达图书馆"⟩

def sampleRoute : RouteRow :=
  ⟨1, "主教学楼到图书馆", 1, 2, [sampleW1, sampleW2, sampleW3], 150, 120, true⟩

theorem get_route_sample : get_route [sampleRoute] 1 2 = some sampleRoute := by
  have hfilter : [sampleRoute].filter
      (fun r => decide (r.start_location_id = 1 ∧ r.end_location_id = 2)) =
      [sampleRoute] := by
    simp [sampleRoute]
  show ([sampleRoute].filter
    (fun r => decide (r.start_location_id = 1 ∧ r.end_location_id = 2))
      |>.mergeSort route_le).head? = some sampleRoute
  rw [hfilter, List.mergeSort_singleton]
  rfl

/-- Witness for claim C8's theorem on the store holding just the sample
route. -/
theorem route_selection_spec_witness :
    (sampleRoute.start_location_id = 1 ∧ sampleRoute.end_location_id = 2) ∧
    (sampleRoute.is_accessible = true → sampleRoute.is_accessible = true) ∧
    (sampleRoute.is_accessible = sampleRoute.is_accessible →
      sampleRoute.distance ≤ sampleRoute.distance) := by
  have h := (route_selection_spec [sampleRoute] 1 2).2 sampleRoute get_route_sample
  have h2 := h.2 sampleRoute (List.mem_singleton.mpr rfl) rfl rfl
  exact ⟨h.1, h2.1, h2.2⟩

end PyMobile

namespace PyMobile

/-! ## Nearby-places query (claim C6) -/

theorem pair_le_trans (a b c : Location × ℝ)
    (hab : (decide (a.2 ≤ b.2)) = true) (hbc : (decide (b.2 ≤ c.2)) = true) :
    (decide (a.2 ≤ c.2)) = true := by
  simp only [decide_eq_true_eq] at *
  exact le_trans hab hbc

theorem pair_le_total (a b : Location × ℝ) :
    (decide (a.2 ≤ b.2) || decide (b.2 ≤ a.2)) = true := by
  simp only [Bool.or_eq_true, decide_eq_true_eq]
  exact le_total a.2 b.2

/-- The pairs collected by `get_nearby_locations` project to the plain
radius filter once the distances are dropped. -/
theorem nearby_pairs_map_fst (lat lng radius : ℝ) (locations : List Location) :
    ((locations.filterMap fun loc =>
        if loc_dist lat lng loc ≤ radius then some (loc, loc_dist lat lng loc)
        else none).map Prod.fst) =
      locations.filter fun loc => loc_dist lat lng loc ≤ radius := by
  induction locations with
  | nil => rfl
  | cons loc rest ih =>
    by_cases h : loc_dist lat lng loc ≤ radius
    · simp only [List.filterMap_cons, if_pos h, List.map_cons, List.filter_cons,
        decide_eq_true h, ih, if_true]
    · simp only [List.filterMap_cons, if_neg h, List.filter_cons, ih]
      rw [decide_eq_false h]
      simp

/-- Every collected pair stores the distance of its own location. -/
theorem nearby_pairs_snd (lat lng radius : ℝ) (locations : List Location)
    (p : Location × ℝ)
    (hp : p ∈ locations.filterMap fun loc =>
      if loc_dist lat lng loc ≤ radius then some (loc, loc_dist lat lng loc)
      else none) :
    p.2 = loc_dist lat lng p.1 := by
  rcases List.mem_filterMap.mp hp with ⟨loc, _, hloc⟩
  by_cases h : loc_dist lat lng loc ≤ radius
  · rw [if_pos h] at hloc
    cases hloc
    rfl
  · rw [if_neg h] at hloc
    cases hloc

/-- Claim C6 (amended): with no known position the query returns the empty
list; with a known position it returns exactly the known locations within
the radius (as a permutation of the radius filter), ordered ascending by
haversine distance from that position — but the returned sequence
contains only the locations, not `(Location, distance)` pairs. -/
theorem nearby_locations_spec :
    ∀ (locations : List Location) (st : NavState) (radius : ℝ),
      (st.current_location = none →
        get_nearby_locations locations st radius = []) ∧
      (∀ pos, st.current_location = some pos →
        (get_nearby_locations locations st radius).Perm
          (locations.filter fun loc =>
            loc_dist pos.latitude pos.longitude loc ≤ radius) ∧
        (get_nearby_locations locations st radius).Pairwise
          (fun a b => loc_dist pos.latitude pos.longitude a ≤
            loc_dist pos.latitude pos.longitude b)) := by
  intro locations st radius
  constructor
  · intro h
    simp only [get_nearby_locations, h]
  · intro pos h
    simp only [get_nearby_locations, h]
    set pairs := locations.filterMap fun loc =>
      if loc_dist pos.latitude pos.longitude loc ≤ radius then
        some (loc, loc_dist pos.latitude pos.longitude loc)
      else none with hpairs
    have hperm : (pairs.mergeSort fun a b => a.2 ≤ b.2).Perm pairs :=
      List.mergeSort_perm pairs _
    constructor
    · have h1 : ((pairs.mergeSort fun a b => a.2 ≤ b.2).map Prod.fst).Perm
          (pairs.map Prod.fst) := hperm.map Prod.fst
      have h2 := nearby_pairs_map_fst pos.latitude pos.longitude radius locations
      rw [← hpairs] at h2
      rw [h2] at h1
      exact h1
    · have hsorted : (pairs.mergeSort fun a b => a.2 ≤ b.2).Pairwise
          (fun a b => (decide (a.2 ≤ b.2)) = true) :=
        List.sorted_mergeSort pair_le_trans pair_le_total pairs
      have hmem : ∀ p ∈ pairs.mergeSort fun a b => a.2 ≤ b.2,
          p.2 = loc_dist pos.latitude pos.longitude p.1 := by
        intro p hp
        exact nearby_pairs_snd pos.latitude pos.longitude radius locations p
          (hperm.mem_iff.mp hp)
      rw [List.pairwise_map]
      refine hsorted.imp_of_mem ?_
      intro a b ha hb hab
      have hab' : a.2 ≤ b.2 := of_decide_eq_true hab
      rw [hmem a ha, hmem b hb] at hab'
      exact hab'

end PyMobile

namespace PyMobile

theorem atan2_one_zero : atan2 1 0 = Real.pi / 2 := by
  unfold atan2
  rw [if_neg (lt_irrefl (0 : ℝ))]
  rw [if_neg (by simp : ¬((0:ℝ) < 0 ∧ (0:ℝ) ≤ 1))]
  rw [if_neg (by simp : ¬((0:ℝ) < 0 ∧ (1:ℝ) < 0))]
  rw [if_pos (by norm_num : (0:ℝ) = 0 ∧ (0:ℝ) < 1)]

/-- A concrete nonzero haversine distance: from the (out-of-range but
accepted) point (180°, 0°) to the origin. -/
theorem calculate_distance_180 :
    calculate_distance 180 0 0 0 = 6371000 * Real.pi := by
  simp only [calculate_distance]
  rw [show radians (0 - 180) / 2 = -(Real.pi / 2) from by unfold radians; ring]
  rw [show radians (0 - 0) / 2 = 0 from by unfold radians; ring]
  rw [show radians (180 : ℝ) = Real.pi from by unfold radians; ring]
  rw [show radians (0 : ℝ) = 0 from by unfold radians; ring]
  rw [Real.sin_neg, Real.sin_pi_div_two, Real.sin_zero, Real.cos_pi, Real.cos_zero]
  norm_num [Real.sqrt_one, Real.sqrt_zero, atan2_one_zero]
  ring

/-- Idle state whose last reported position is the origin. -/
def stAtOrigin : NavState := ⟨false, none, 0, some ⟨0, 0, 0, 0⟩, none⟩

/-- Idle state whose last reported position is (180°, 0°). -/
def stAntipodal : NavState := ⟨false, none, 0, some ⟨180, 0, 0, 0⟩, none⟩

theorem nearby_at_origin :
    get_nearby_locations [sampleLoc] stAtOrigin (10 ^ 8) = [sampleLoc] := by
  have hd : loc_dist 0 0 sampleLoc = 0 := calculate_distance_self 0 0
  show ((([sampleLoc].filterMap fun loc =>
    if loc_dist 0 0 loc ≤ 10 ^ 8 then some (loc, loc_dist 0 0 loc)
    else none)).mergeSort fun a b => a.2 ≤ b.2).map Prod.fst = [sampleLoc]
  rw [List.filterMap_cons]
  rw [if_pos (by rw [hd]; norm_num)]
  rw [show (List.filterMap _ [] : List (Location × ℝ)) = [] from rfl]
  rw [List.mergeSort_singleton]
  rfl

theorem nearby_antipodal :
    get_nearby_locations [sampleLoc] stAntipodal (10 ^ 8) = [sampleLoc] := by
  have hd : loc_dist 180 0 sampleLoc = 6371000 * Real.pi := calculate_distance_180
  have hle : loc_dist 180 0 sampleLoc ≤ 10 ^ 8 := by
    rw [hd]
    nlinarith [Real.pi_le_four]
  show ((([sampleLoc].filterMap fun loc =>
    if loc_dist 180 0 loc ≤ 10 ^ 8 then some (loc, loc_dist 180 0 loc)
    else none)).mergeSort fun a b => a.2 ≤ b.2).map Prod.fst = [sampleLoc]
  rw [List.filterMap_cons]
  rw [if_pos hle]
  rw [show (List.filterMap _ [] : List (Location × ℝ)) = [] from rfl]
  rw [List.mergeSort_singleton]
  rfl

/-- Counterexample for claim C6 as stated: the query's return value does
not carry the distances.  Two sessions whose current positions are at
provably different haversine distances from the single known location
(and both within the radius) receive identical return values, so the
returned sequence cannot be a sequence of `(Location, distance)` pairs —
the code returns only the locations. -/
theorem nearby_locations_pairs_counterexample :
    get_nearby_locations [sampleLoc] stAtOrigin (10 ^ 8) =
      get_nearby_locations [sampleLoc] stAntipodal (10 ^ 8) ∧
    loc_dist 0 0 sampleLoc ≠ loc_dist 180 0 sampleLoc ∧
    loc_dist 0 0 sampleLoc ≤ 10 ^ 8 ∧
    loc_dist 180 0 sampleLoc ≤ 10 ^ 8 := by
  have h0 : loc_dist 0 0 sampleLoc = 0 := calculate_distance_self 0 0
  have h180 : loc_dist 180 0 sampleLoc = 6371000 * Real.pi := calculate_distance_180
  refine ⟨nearby_at_origin.trans nearby_antipodal.symm, ?_, ?_, ?_⟩
  · rw [h0, h180]
    intro h
    exact Real.pi_ne_zero (by linarith)
  · rw [h0]; norm_num
  · rw [h180]; nlinarith [Real.pi_le_four]

/-- Witness for claim C6's (amended) theorem at a concrete session. -/
theorem nearby_locations_spec_witness :
    (get_nearby_locations [sampleLoc] stAtOrigin (10 ^ 8)).Perm
      ([sampleLoc].filter fun loc => loc_dist 0 0 loc ≤ 10 ^ 8) ∧
    (get_nearby_locations [sampleLoc] stAtOrigin (10 ^ 8)).Pairwise
      (fun a b => loc_dist 0 0 a ≤ loc_dist 0 0 b) :=
  (nearby_locations_spec [sampleLoc] stAtOrigin (10 ^ 8)).2 ⟨0, 0, 0, 0⟩ rfl
end PyMobile

namespace PyMobile

/-! ## stop() semantics (claim C7) -/

/-- Claim C7: while not navigating, `stop_navigation` changes nothing and
emits nothing; while navigating, it only clears the navigating flag,
emits exactly one "stopped" announcement, and detaches the GPS driver
when one is attached. -/
theorem stop_navigation_spec :
    ∀ (gps : Bool) (st : NavState),
      (st.is_navigating = false → stop_navigation gps st = (st, [])) ∧
      (st.is_navigating = true →
        (stop_navigation gps st).1 = {st with is_navigating := false} ∧
        (stop_navigation gps st).2 =
          Event.speak "导航已停止" :: (if gps then [Event.gps_stop] else []) ∧
        ((stop_navigation gps st).2.filter Event.isSpeak).length = 1) := by
  intro gps st
  constructor
  · intro h
    simp [stop_navigation, h]
  · intro h
    refine ⟨by simp [stop_navigation, h], by simp [stop_navigation, h], ?_⟩
    cases gps <;> simp [stop_navigation, h, Event.isSpeak]

/-- A session in the middle of navigating the sample route. -/
def stNavigating : NavState :=
  ⟨true, some sampleRoute, 0, some ⟨39.9040, 116.4070, 5, 0⟩, some sampleLoc⟩

/-- Witness for claim C7's theorem on a navigating session (and the
no-op half on an idle one). -/
theorem stop_navigation_spec_witness :
    stop_navigation false stAtOrigin = (stAtOrigin, []) ∧
    (stop_navigation false stNavigating).1 =
      {stNavigating with is_navigating := false} ∧
    ((stop_navigation false stNavigating).2.filter Event.isSpeak).length = 1 := by
  have h0 := (stop_navigation_spec false stAtOrigin).1 rfl
  have h := (stop_navigation_spec false stNavigating).2 rfl
  exact ⟨h0, h.1, h.2.2⟩

/-! ## Failure-preserving start (claim C3) -/

/-- Claim C3: when starting navigation fails — no locations are known
(the nearest-location lookup returns `none`, which by claim C5 happens
exactly on an empty location list) or the store has no route for the
resolved pair — the session's stored route, instruction index and
navigating flag all keep their previous values and exactly one error
announcement is emitted. -/
theorem failed_start_spec :
    ∀ (gps : Bool) (locations : List Location) (routes : List RouteRow)
      (t : ℝ) (st : NavState) (dest : Location),
      (locations = [] →
        (start_navigation_to_destination gps locations routes t st dest).1.current_route
            = st.current_route ∧
        (start_navigation_to_destination gps locations routes t st dest).1.current_instruction_index
            = st.current_instruction_index ∧
        (start_navigation_to_destination gps locations routes t st dest).1.is_navigating
            = st.is_navigating ∧
        (start_navigation_to_destination gps locations routes t st dest).2
            = [Event.announce_error "无法确定起始位置"]) ∧
      (∀ start_loc : Location,
        find_nearest_location locations (resolved_position t st).latitude
          (resolved_position t st).longitude = some start_loc →
        get_route routes start_loc.id dest.id = none →
        (start_navigation_to_destination gps locations routes t st dest).1.current_route
            = st.current_route ∧
        (start_navigation_to_destination gps locations routes t st dest).1.current_instruction_index
            = st.current_instruction_index ∧
        (start_navigation_to_destination gps locations routes t st dest).1.is_navigating
            = st.is_navigating ∧
        (start_navigation_to_destination gps locations routes t st dest).2
            = [Event.announce_error ("没有找到到" ++ dest.name ++ "的路径")]) := by
  intro gps locations routes t st dest
  constructor
  · intro h
    subst h
    simp [start_navigation_to_destination, find_nearest_location]
  · intro start_loc hfind hroute
    simp [start_navigation_to_destination, hfind, hroute]

/-- Witness for claim C3's theorem: an empty location store, and a
one-location store with an empty route table. -/
theorem failed_start_spec_witness :
    ((start_navigation_to_destination false [] [] 0 stAtOrigin sampleLoc).2
        = [Event.announce_error "无法确定起始位置"]) ∧
    ((start_navigation_to_destination false [sampleLoc] [] 0 stAtOrigin sampleLoc).1.is_navigating
        = stAtOrigin.is_navigating) ∧
    ((start_navigation_to_destination false [sampleLoc] [] 0 stAtOrigin sampleLoc).2
        = [Event.announce_error ("没有找到到" ++ sampleLoc.name ++ "的路径")]) := by
  have h1 := (failed_start_spec false [] [] 0 stAtOrigin sampleLoc).1 rfl
  have h2 := (failed_start_spec false [sampleLoc] [] 0 stAtOrigin sampleLoc).2
    sampleLoc rfl (by simp [get_route])
  exact ⟨h1.2.2.2, h2.2.2.1, h2.2.2.2⟩

end PyMobile

namespace PyMobile

/-! ## Live-tick branch analysis (claims C1, C10) -/

/-- Exhausted route: the progress check is a no-op. -/
theorem check_progress_exhausted (gps : Bool) (st : NavState) (pos : Position)
    (r : RouteRow) (hroute : st.current_route = some r)
    (hlen : r.waypoints.length ≤ st.current_instruction_index) :
    check_navigation_progress gps st pos = (st, []) := by
  have hw : r.waypoints.get? st.current_instruction_index = none :=
    List.get?_eq_none.mpr hlen
  rw [List.get?_eq_getElem?] at hw
  simp [check_navigation_progress, hroute, hw]

/-- Beyond the 20 m instruction radius: no state change, no event. -/
theorem check_progress_far (gps : Bool) (st : NavState) (pos : Position)
    (r : RouteRow) (w : Waypoint)
    (hnav : st.is_navigating = true) (hroute : st.current_route = some r)
    (hw : r.waypoints.get? st.current_instruction_index = some w)
    (hd : ¬calculate_distance pos.latitude pos.longitude w.lat w.lng ≤ 20) :
    check_navigation_progress gps st pos = (st, []) := by
  rw [List.get?_eq_getElem?] at hw
  simp [check_navigation_progress, hnav, hroute, hw,
    instruction_distance_threshold, hd]

/-- Inside 20 m but not inside 5 m: the instruction is announced and the
state is unchanged. -/
theorem check_progress_instr_only (gps : Bool) (st : NavState) (pos : Position)
    (r : RouteRow) (w : Waypoint)
    (hnav : st.is_navigating = true) (hroute : st.current_route = some r)
    (hw : r.waypoints.get? st.current_instruction_index = some w)
    (hd20 : calculate_distance pos.latitude pos.longitude w.lat w.lng ≤ 20)
    (hd5 : ¬calculate_distance pos.latitude pos.longitude w.lat w.lng ≤ 5) :
    check_navigation_progress gps st pos =
      (st, [Event.announce_instruction (instruction_text w)
        (calculate_distance pos.latitude pos.longitude w.lat w.lng)]) := by
  rw [List.get?_eq_getElem?] at hw
  simp [check_navigation_progress, hnav, hroute, hw,
    instruction_distance_threshold, hd20, hd5]

/-- Inside 5 m of a non-final waypoint: the instruction is announced and
the index advances by one. -/
theorem check_progress_advance_mid (gps : Bool) (st : NavState) (pos : Position)
    (r : RouteRow) (w : Waypoint)
    (hnav : st.is_navigating = true) (hroute : st.current_route = some r)
    (hw : r.waypoints.get? st.current_instruction_index = some w)
    (hd5 : calculate_distance pos.latitude pos.longitude w.lat w.lng ≤ 5)
    (hlen : st.current_instruction_index + 1 < r.waypoints.length) :
    check_navigation_progress gps st pos =
      ({st with current_instruction_index := st.current_instruction_index + 1},
       [Event.announce_instruction (instruction_text w)
         (calculate_distance pos.latitude pos.longitude w.lat w.lng)]) := by
  have hd20 : calculate_distance pos.latitude pos.longitude w.lat w.lng ≤ 20 := by
    linarith
  have hnotlen : ¬r.waypoints.length ≤ st.current_instruction_index + 1 := by
    omega
  rw [List.get?_eq_getElem?] at hw
  simp [check_navigation_progress, hnav, hroute, hw,
    instruction_distance_threshold, hd20, hd5, hnotlen]

/-- The session-state fields read by `on_arrival` announcements. -/
def destination_name (st : NavState) : String :=
  match st.destination with
  | some d => d.name
  | none => ""

/-- Inside 5 m of the final waypoint: the instruction is announced, the
index advances past the end, and the arrival path runs (arrival
announcement, one history record, GPS stop when attached). -/
theorem check_progress_advance_last (gps : Bool) (st : NavState) (pos : Position)
    (r : RouteRow) (w : Waypoint)
    (hnav : st.is_navigating = true) (hroute : st.current_route = some r)
    (hw : r.waypoints.get? st.current_instruction_index = some w)
    (hd5 : calculate_distance pos.latitude pos.longitude w.lat w.lng ≤ 5)
    (hlen : r.waypoints.length = st.current_instruction_index + 1) :
    check_navigation_progress gps st pos =
      ({st with current_instruction_index := st.current_instruction_index + 1,
                is_navigating := false},
       [Event.announce_instruction (instruction_text w)
          (calculate_distance pos.latitude pos.longitude w.lat w.lng),
        Event.announce_arrival (destination_name st),
        Event.add_history "当前位置" (destination_name st) r.name] ++
       (if gps then [Event.gps_stop] else [])) := by
  have hd20 : calculate_distance pos.latitude pos.longitude w.lat w.lng ≤ 20 := by
    linarith
  have hlen' : r.waypoints.length ≤ st.current_instruction_index + 1 := le_of_eq hlen
  rw [List.get?_eq_getElem?] at hw
  simp [check_navigation_progress, on_arrival, hnav, hroute, hw,
    instruction_distance_threshold, hd20, hd5, hlen', destination_name]

end PyMobile

namespace PyMobile

/-- Full branch analysis of one progress check: the route, stored
location and destination are never touched; the index either stays or
advances by exactly one (and advancing requires a non-exhausted index);
the navigating flag drops only on the arrival branch, which requires the
advance to reach the waypoint count. -/
theorem check_progress_cases (gps : Bool) (st : NavState) (pos : Position) :
    (check_navigation_progress gps st pos).1.current_route = st.current_route ∧
    (check_navigation_progress gps st pos).1.current_location = st.current_location ∧
    (check_navigation_progress gps st pos).1.destination = st.destination ∧
    (((check_navigation_progress gps st pos).1.current_instruction_index =
          st.current_instruction_index ∧
        (check_navigation_progress gps st pos).1.is_navigating = st.is_navigating) ∨
      ((check_navigation_progress gps st pos).1.current_instruction_index =
          st.current_instruction_index + 1 ∧
        (∀ r, st.current_route = some r →
          st.current_instruction_index < r.waypoints.length) ∧
        ((check_navigation_progress gps st pos).1.is_navigating = st.is_navigating ∨
          ((check_navigation_progress gps st pos).1.is_navigating = false ∧
            ∀ r, st.current_route = some r →
              r.waypoints.length ≤ st.current_instruction_index + 1)))) := by
  unfold check_navigation_progress on_arrival
  dsimp only
  split
  · exact ⟨rfl, rfl, rfl, Or.inl ⟨rfl, rfl⟩⟩
  split
  · exact ⟨rfl, rfl, rfl, Or.inl ⟨rfl, rfl⟩⟩
  next route hroute =>
    split
    · exact ⟨rfl, rfl, rfl, Or.inl ⟨rfl, rfl⟩⟩
    next w hw =>
      have hlt : st.current_instruction_index < route.waypoints.length := by
        rw [List.get?_eq_getElem?] at hw
        rcases List.getElem?_eq_some.mp hw with ⟨h, _⟩
        exact h
      have hlt' : ∀ r, st.current_route = some r →
          st.current_instruction_index < r.waypoints.length := by
        intro r hr
        rw [hroute] at hr
        injection hr with hr
        rw [← hr]
        exact hlt
      split
      · split
        · split
          next hlen =>
            refine ⟨rfl, rfl, rfl, Or.inr ⟨rfl, hlt', Or.inr ⟨rfl, ?_⟩⟩⟩
            intro r hr
            rw [hroute] at hr
            injection hr with hr
            rw [← hr]
            exact hlen
          next hlen =>
            exact ⟨rfl, rfl, rfl, Or.inr ⟨rfl, hlt', Or.inl rfl⟩⟩
        · exact ⟨rfl, rfl, rfl, Or.inl ⟨rfl, rfl⟩⟩
      · exact ⟨rfl, rfl, rfl, Or.inl ⟨rfl, rfl⟩⟩

/-- The same branch analysis lifted to one live position report. -/
theorem tick_cases (gps : Bool) (st : NavState) (lat lng acc t : ℝ) :
    (on_location_update gps st lat lng acc t).1.current_route =
      st.current_route ∧
    (on_location_update gps st lat lng acc t).1.destination = st.destination ∧
    (((on_location_update gps st lat lng acc t).1.current_instruction_index =
          st.current_instruction_index ∧
        (on_location_update gps st lat lng acc t).1.is_navigating =
          st.is_navigating) ∨
      ((on_location_update gps st lat lng acc t).1.current_instruction_index =
          st.current_instruction_index + 1 ∧
        (∀ r, st.current_route = some r →
          st.current_instruction_index < r.waypoints.length) ∧
        ((on_location_update gps st lat lng acc t).1.is_navigating =
            st.is_navigating ∨
          ((on_location_update gps st lat lng acc t).1.is_navigating = false ∧
            ∀ r, st.current_route = some r →
              r.waypoints.length ≤ st.current_instruction_index + 1)))) := by
  unfold on_location_update
  dsimp only
  split
  · have h := check_progress_cases gps
      {st with current_location := some ⟨lat, lng, acc, t⟩} ⟨lat, lng, acc, t⟩
    exact ⟨h.1, h.2.2.1, h.2.2.2⟩
  · exact ⟨rfl, rfl, Or.inl ⟨rfl, rfl⟩⟩

/-- A stream of live reports never changes the stored route. -/
theorem run_updates_route (gps : Bool) :
    ∀ (ps : List Position) (st : NavState),
      (run_updates gps st ps).1.current_route = st.current_route := by
  intro ps
  induction ps with
  | nil => intro st; rfl
  | cons p ps ih =>
    intro st
    have h1 : (run_updates gps st (p :: ps)).1 =
        (run_updates gps
          (on_location_update gps st p.latitude p.longitude p.accuracy
            p.timestamp).1 ps).1 := rfl
    rw [h1, ih]
    exact (tick_cases gps st p.latitude p.longitude p.accuracy p.timestamp).1

/-- Reaching the non-navigating (arrived) flag from a fresh stream
requires at least `len(waypoints) - current_index` reports. -/
theorem run_updates_arrival_bound (gps : Bool) (r : RouteRow) :
    ∀ (ps : List Position) (st : NavState), st.current_route = some r →
      st.is_navigating = true →
      (run_updates gps st ps).1.is_navigating = false →
      r.waypoints.length ≤ st.current_instruction_index + ps.length := by
  intro ps
  induction ps with
  | nil =>
    intro st hroute hnav hfinal
    have : st.is_navigating = false := hfinal
    rw [hnav] at this
    cases this
  | cons p ps ih =>
    intro st hroute hnav hfinal
    have hstep := tick_cases gps st p.latitude p.longitude p.accuracy p.timestamp
    have hroute1 : (on_location_update gps st p.latitude p.longitude p.accuracy
        p.timestamp).1.current_route = some r := by
      rw [hstep.1]
      exact hroute
    have hfinal' : (run_updates gps
        (on_location_update gps st p.latitude p.longitude p.accuracy
          p.timestamp).1 ps).1.is_navigating = false := hfinal
    by_cases hnav1 : (on_location_update gps st p.latitude p.longitude p.accuracy
        p.timestamp).1.is_navigating = true
    · have hb := ih _ hroute1 hnav1 hfinal'
      rcases hstep.2.2 with ⟨hidx, _⟩ | ⟨hidx, _, _⟩ <;>
        (rw [hidx] at hb; simp only [List.length_cons]; omega)
    · rcases hstep.2.2 with ⟨_, hnavs⟩ | ⟨_, _, hnavs | ⟨_, hbound⟩⟩
      · rw [hnav] at hnavs
        exact absurd hnavs hnav1
      · rw [hnav] at hnavs
        exact absurd hnavs hnav1
      · have := hbound r hroute
        simp only [List.length_cons]
        omega

end PyMobile

namespace PyMobile

/-- The synthetic playback loop never touches the stored route, the
instruction index, or the destination. -/
theorem update_instruction_frame (gps : Bool) :
    ∀ (ws : List Waypoint) (st : NavState),
      (update_instruction gps st ws).1.current_route = st.current_route ∧
      (update_instruction gps st ws).1.current_instruction_index =
        st.current_instruction_index ∧
      (update_instruction gps st ws).1.destination = st.destination := by
  intro ws
  induction ws with
  | nil => intro st; exact ⟨rfl, rfl, rfl⟩
  | cons w rest ih =>
    intro st
    unfold update_instruction on_arrival
    dsimp only
    split
    · exact ⟨rfl, rfl, rfl⟩
    split
    · exact ⟨rfl, rfl, rfl⟩
    split
    · exact ⟨rfl, rfl, rfl⟩
    · exact ⟨(ih _).1, (ih _).2.1, (ih _).2.2⟩

/-- `_simulate_navigation` never touches route, index or destination. -/
theorem simulate_navigation_frame (gps : Bool) (st : NavState) :
    (simulate_navigation gps st).1.current_route = st.current_route ∧
    (simulate_navigation gps st).1.current_instruction_index =
      st.current_instruction_index ∧
    (simulate_navigation gps st).1.destination = st.destination := by
  unfold simulate_navigation
  split
  · exact ⟨rfl, rfl, rfl⟩
  split
  · exact ⟨rfl, rfl, rfl⟩
  · exact update_instruction_frame gps _ st

/-- Claim C10: the invariant `current_instruction_index ≤ len(waypoints of
the active route)` (the index is a natural number, so `0 ≤ index` holds by
type) is established by a successful start, preserved by every live tick
— an exhausted index makes the progress check a no-op, and otherwise one
tick advances the index by at most one — and consequently the navigating
flag can only drop after at least `len(waypoints)` live ticks from a
freshly started session. -/
theorem index_invariant_spec :
    (∀ (gps : Bool) (locations : List Location) (routes : List RouteRow)
        (t : ℝ) (st : NavState) (dest : Location),
      (∀ r, st.current_route = some r →
        st.current_instruction_index ≤ r.waypoints.length) →
      ∀ r, (start_navigation_to_destination gps locations routes t st
          dest).1.current_route = some r →
        (start_navigation_to_destination gps locations routes t st
          dest).1.current_instruction_index ≤ r.waypoints.length) ∧
    (∀ (gps : Bool) (st : NavState) (pos : Position) (r : RouteRow),
      st.current_route = some r →
      r.waypoints.length ≤ st.current_instruction_index →
      check_navigation_progress gps st pos = (st, [])) ∧
    (∀ (gps : Bool) (st : NavState) (lat lng acc t : ℝ),
      (on_location_update gps st lat lng acc t).1.current_instruction_index ≤
        st.current_instruction_index + 1 ∧
      ((∀ r, st.current_route = some r →
          st.current_instruction_index ≤ r.waypoints.length) →
        ∀ r, (on_location_update gps st lat lng acc t).1.current_route = some r →
          (on_location_update gps st lat lng acc t).1.current_instruction_index ≤
            r.waypoints.length)) ∧
    (∀ (gps : Bool) (r : RouteRow) (st : NavState) (ps : List Position),
      st.current_route = some r → st.current_instruction_index = 0 →
      st.is_navigating = true →
      (run_updates gps st ps).1.is_navigating = false →
      r.waypoints.length ≤ ps.length) := by
  refine ⟨?_, ?_, ?_, ?_⟩
  · intro gps locations routes t st dest hinv r hroute
    unfold start_navigation_to_destination at hroute ⊢
    dsimp only at hroute ⊢
    split at hroute
    · exact hinv r hroute
    split at hroute
    · exact hinv r hroute
    next route hget =>
      by_cases hgps : gps = true
      · rw [if_pos hgps] at hroute ⊢
        exact Nat.zero_le _
      · rw [if_neg hgps] at hroute ⊢
        dsimp only at hroute ⊢
        have hframe := simulate_navigation_frame gps
          {st with destination := some dest,
                   current_location := some (resolved_position t st),
                   current_route := some route,
                   current_instruction_index := 0,
                   is_navigating := true}
        rw [hframe.2.1]
        exact Nat.zero_le _
  · intro gps st pos r hroute hlen
    exact check_progress_exhausted gps st pos r hroute hlen
  · intro gps st lat lng acc t
    have h := tick_cases gps st lat lng acc t
    constructor
    · rcases h.2.2 with ⟨hidx, _⟩ | ⟨hidx, _, _⟩ <;> omega
    · intro hinv r hroute
      rw [h.1] at hroute
      rcases h.2.2 with ⟨hidx, _⟩ | ⟨hidx, hlt, _⟩
      · rw [hidx]
        exact hinv r hroute
      · rw [hidx]
        exact hlt r hroute
  · intro gps r st ps hroute hidx hnav hfinal
    have := run_updates_arrival_bound gps r ps st hroute hnav hfinal
    omega

end PyMobile

namespace PyMobile

/-! ## Live-tick behaviour lifted to position reports (claim C1) -/

theorem on_location_update_navigating (gps : Bool) (st : NavState)
    (lat lng acc t : ℝ) (hnav : st.is_navigating = true) :
    on_location_update gps st lat lng acc t =
      check_navigation_progress gps
        {st with current_location := some ⟨lat, lng, acc, t⟩}
        ⟨lat, lng, acc, t⟩ := by
  simp [on_location_update, hnav]

/-- One report within 5 m of a non-final waypoint: the sample is stored,
the instruction is announced, the index advances. -/
theorem tick_advance_mid (gps : Bool) (st : NavState) (lat lng acc t : ℝ)
    (r : RouteRow) (w : Waypoint)
    (hnav : st.is_navigating = true) (hroute : st.current_route = some r)
    (hw : r.waypoints.get? st.current_instruction_index = some w)
    (hd5 : calculate_distance lat lng w.lat w.lng ≤ 5)
    (hlen : st.current_instruction_index + 1 < r.waypoints.length) :
    on_location_update gps st lat lng acc t =
      ({st with current_location := some ⟨lat, lng, acc, t⟩,
                current_instruction_index := st.current_instruction_index + 1},
       [Event.announce_instruction (instruction_text w)
          (calculate_distance lat lng w.lat w.lng)]) := by
  rw [on_location_update_navigating gps st lat lng acc t hnav]
  rw [check_progress_advance_mid gps
    {st with current_location := some ⟨lat, lng, acc, t⟩}
    ⟨lat, lng, acc, t⟩ r w hnav hroute hw hd5 hlen]

/-- One report within 5 m of the final waypoint: the sample is stored,
the instruction is announced, the index advances past the end, and the
arrival path runs. -/
theorem tick_advance_last (gps : Bool) (st : NavState) (lat lng acc t : ℝ)
    (r : RouteRow) (w : Waypoint)
    (hnav : st.is_navigating = true) (hroute : st.current_route = some r)
    (hw : r.waypoints.get? st.current_instruction_index = some w)
    (hd5 : calculate_distance lat lng w.lat w.lng ≤ 5)
    (hlen : r.waypoints.length = st.current_instruction_index + 1) :
    on_location_update gps st lat lng acc t =
      ({st with current_location := some ⟨lat, lng, acc, t⟩,
                current_instruction_index := st.current_instruction_index + 1,
                is_navigating := false},
       [Event.announce_instruction (instruction_text w)
          (calculate_distance lat lng w.lat w.lng),
        Event.announce_arrival (destination_name st),
        Event.add_history "当前位置" (destination_name st) r.name] ++
       (if gps then [Event.gps_stop] else [])) := by
  rw [on_location_update_navigating gps st lat lng acc t hnav]
  rw [check_progress_advance_last gps
    {st with current_location := some ⟨lat, lng, acc, t⟩}
    ⟨lat, lng, acc, t⟩ r w hnav hroute hw hd5 hlen]
  dsimp only [destination_name]

end PyMobile

namespace PyMobile

/-- Claim C1: on each live position update processed while navigating
with a non-exhausted route, with `d` the haversine distance to the
waypoint at the current index: the instruction event carrying that
waypoint's instruction and `d` is emitted iff `d ≤ 20` (no
de-duplication: nothing prevents it from firing again on a later update);
if additionally `d ≤ 5` the index advances by exactly one, otherwise it
stays; if the advance reaches the waypoint count an arrival event is
emitted and the session stops navigating, and otherwise no arrival event
is emitted; with an exhausted index the progress check is a no-op; and a
3-waypoint route visited by three successive updates within 5 m of the
waypoints in order emits exactly 3 instruction events and ends no longer
navigating (arrived). -/
theorem live_tick_spec :
    (∀ (gps : Bool) (st : NavState) (pos : Position) (r : RouteRow)
        (w : Waypoint) (d : ℝ),
      st.is_navigating = true →
      st.current_route = some r →
      r.waypoints.get? st.current_instruction_index = some w →
      d = calculate_distance pos.latitude pos.longitude w.lat w.lng →
      ((Event.announce_instruction (instruction_text w) d ∈
          (check_navigation_progress gps st pos).2) ↔ d ≤ 20) ∧
      (d ≤ 5 → (check_navigation_progress gps st pos).1.current_instruction_index =
        st.current_instruction_index + 1) ∧
      (¬d ≤ 5 → (check_navigation_progress gps st pos).1.current_instruction_index =
        st.current_instruction_index) ∧
      (d ≤ 5 → r.waypoints.length = st.current_instruction_index + 1 →
        Event.announce_arrival (destination_name st) ∈
          (check_navigation_progress gps st pos).2 ∧
        (check_navigation_progress gps st pos).1.is_navigating = false) ∧
      (d ≤ 5 → st.current_instruction_index + 1 < r.waypoints.length →
        (check_navigation_progress gps st pos).1.is_navigating =
          st.is_navigating ∧
        ∀ name, Event.announce_arrival name ∉
          (check_navigation_progress gps st pos).2)) ∧
    (∀ (gps : Bool) (st : NavState) (pos : Position) (r : RouteRow),
      st.current_route = some r →
      r.waypoints.length ≤ st.current_instruction_index →
      check_navigation_progress gps st pos = (st, [])) ∧
    (∀ (gps : Bool) (st : NavState) (r : RouteRow) (u1 u2 u3 : Waypoint)
        (p1 p2 p3 : Position),
      st.is_navigating = true →
      st.current_route = some r →
      st.current_instruction_index = 0 →
      r.waypoints = [u1, u2, u3] →
      calculate_distance p1.latitude p1.longitude u1.lat u1.lng ≤ 5 →
      calculate_distance p2.latitude p2.longitude u2.lat u2.lng ≤ 5 →
      calculate_distance p3.latitude p3.longitude u3.lat u3.lng ≤ 5 →
      countInstructions (run_updates gps st [p1, p2, p3]).2 = 3 ∧
      (run_updates gps st [p1, p2, p3]).1.is_navigating = false) := by
  refine ⟨?_, ?_, ?_⟩
  · intro gps st pos r w d hnav hroute hw hd
    subst hd
    have hlt : st.current_instruction_index < r.waypoints.length := by
      have hw' := hw
      rw [List.get?_eq_getElem?] at hw'
      rcases List.getElem?_eq_some.mp hw' with ⟨h, _⟩
      exact h
    by_cases h20 : calculate_distance pos.latitude pos.longitude w.lat w.lng ≤ 20
    · by_cases h5 : calculate_distance pos.latitude pos.longitude w.lat w.lng ≤ 5
      · rcases Nat.lt_or_ge (st.current_instruction_index + 1) r.waypoints.length
          with hmid | hlast
        · rw [check_progress_advance_mid gps st pos r w hnav hroute hw h5 hmid]
          refine ⟨by simp [h20], fun _ => rfl, fun h => absurd h5 h, ?_, ?_⟩
          · intro _ hlen
            omega
          · intro _ _
            exact ⟨rfl, by simp⟩
        · have hlen : r.waypoints.length = st.current_instruction_index + 1 := by
            omega
          rw [check_progress_advance_last gps st pos r w hnav hroute hw h5 hlen]
          refine ⟨by simp [h20], fun _ => rfl, fun h => absurd h5 h, ?_, ?_⟩
          · intro _ _
            refine ⟨?_, rfl⟩
            cases gps <;> simp
          · intro _ hmid
            omega
      · rw [check_progress_instr_only gps st pos r w hnav hroute hw h20 h5]
        refine ⟨by simp [h20], fun h => absurd h h5, fun _ => rfl, ?_, ?_⟩
        · intro h _
          exact absurd h h5
        · intro h _
          exact absurd h h5
    · have h5 : ¬calculate_distance pos.latitude pos.longitude w.lat w.lng ≤ 5 := by
        intro h
        exact h20 (by linarith)
      rw [check_progress_far gps st pos r w hnav hroute hw h20]
      refine ⟨by simp [h20], fun h => absurd h h5, fun _ => rfl, ?_, ?_⟩
      · intro h _
        exact absurd h h5
      · intro h _
        exact absurd h h5
  · intro gps st pos r hroute hlen
    exact check_progress_exhausted gps st pos r hroute hlen
  · intro gps st r u1 u2 u3 p1 p2 p3 hnav hroute hidx hwp hd1 hd2 hd3
    have hw1 : r.waypoints.get? st.current_instruction_index = some u1 := by
      rw [hidx, hwp]
      rfl
    have hlen1 : st.current_instruction_index + 1 < r.waypoints.length := by
      rw [hidx, hwp]
      simp
    have t1 := tick_advance_mid gps st p1.latitude p1.longitude p1.accuracy
      p1.timestamp r u1 hnav hroute hw1 hd1 hlen1
    have hw2 : r.waypoints.get? (st.current_instruction_index + 1) = some u2 := by
      rw [hidx, hwp]
      rfl
    have hlen2 : st.current_instruction_index + 1 + 1 < r.waypoints.length := by
      rw [hidx, hwp]
      simp
    have t2 := tick_advance_mid gps
      {st with current_location := some ⟨p1.latitude, p1.longitude, p1.accuracy, p1.timestamp⟩, current_instruction_index := st.current_instruction_index + 1}
      p2.latitude p2.longitude p2.accuracy p2.timestamp r u2 hnav hroute hw2 hd2
      hlen2
    have hw3 : r.waypoints.get? (st.current_instruction_index + 1 + 1) = some u3 := by
      rw [hidx, hwp]
      rfl
    have hlen3 : r.waypoints.length = st.current_instruction_index + 1 + 1 + 1 := by
      rw [hidx, hwp]
      simp
    have t3 := tick_advance_last gps
      {st with current_location := some ⟨p2.latitude, p2.longitude, p2.accuracy, p2.timestamp⟩, current_instruction_index := st.current_instruction_index + 1 + 1}
      p3.latitude p3.longitude p3.accuracy p3.timestamp r u3 hnav hroute hw3 hd3
      hlen3
    have hrun : run_updates gps st [p1, p2, p3] =
        ((run_updates gps
          (on_location_update gps st p1.latitude p1.longitude p1.accuracy
            p1.timestamp).1 [p2, p3]).1,
         (on_location_update gps st p1.latitude p1.longitude p1.accuracy
            p1.timestamp).2 ++
          (run_updates gps
            (on_location_update gps st p1.latitude p1.longitude p1.accuracy
              p1.timestamp).1 [p2, p3]).2) := rfl
    rw [hrun, t1]
    dsimp only
    have hrun2 : run_updates gps
        ({st with current_location := some ⟨p1.latitude, p1.longitude, p1.accuracy, p1.timestamp⟩, current_instruction_index := st.current_instruction_index + 1})
        [p2, p3] =
        ((run_updates gps
          (on_location_update gps
            {st with current_location := some ⟨p1.latitude, p1.longitude, p1.accuracy, p1.timestamp⟩, current_instruction_index := st.current_instruction_index + 1}
            p2.latitude p2.longitude p2.accuracy p2.timestamp).1 [p3]).1,
         (on_location_update gps
            {st with current_location := some ⟨p1.latitude, p1.longitude, p1.accuracy, p1.timestamp⟩, current_instruction_index := st.current_instruction_index + 1}
            p2.latitude p2.longitude p2.accuracy p2.timestamp).2 ++
          (run_updates gps
            (on_location_update gps
              {st with current_location := some ⟨p1.latitude, p1.longitude, p1.accuracy, p1.timestamp⟩, current_instruction_index := st.current_instruction_index + 1}
              p2.latitude p2.longitude p2.accuracy p2.timestamp).1 [p3]).2) := rfl
    rw [hrun2, t2]
    dsimp only
    have hrun3 : run_updates gps
        ({st with current_location := some ⟨p2.latitude, p2.longitude, p2.accuracy, p2.timestamp⟩, current_instruction_index := st.current_instruction_index + 1 + 1})
        [p3] =
        ((on_location_update gps
            {st with current_location := some ⟨p2.latitude, p2.longitude, p2.accuracy, p2.timestamp⟩, current_instruction_index := st.current_instruction_index + 1 + 1}
            p3.latitude p3.longitude p3.accuracy p3.timestamp).1,
         (on_location_update gps
            {st with current_location := some ⟨p2.latitude, p2.longitude, p2.accuracy, p2.timestamp⟩, current_instruction_index := st.current_instruction_index + 1 + 1}
            p3.latitude p3.longitude p3.accuracy p3.timestamp).2 ++ []) := rfl
    rw [hrun3, t3]
    dsimp only
    constructor
    · cases gps <;>
        simp [countInstructions, Event.isInstruction]
    · rfl

end PyMobile

namespace PyMobile

/-- Witness for claim C1's theorem: the sample 3-waypoint route driven by
three reports placed exactly on the successive waypoints (distance 0). -/
theorem live_tick_spec_witness :
    countInstructions (run_updates false stNavigating
      [⟨sampleW1.lat, sampleW1.lng, 0, 0⟩, ⟨sampleW2.lat, sampleW2.lng, 0, 0⟩,
       ⟨sampleW3.lat, sampleW3.lng, 0, 0⟩]).2 = 3 ∧
    (run_updates false stNavigating
      [⟨sampleW1.lat, sampleW1.lng, 0, 0⟩, ⟨sampleW2.lat, sampleW2.lng, 0, 0⟩,
       ⟨sampleW3.lat, sampleW3.lng, 0, 0⟩]).1.is_navigating = false := by
  have hd1 : calculate_distance sampleW1.lat sampleW1.lng sampleW1.lat
      sampleW1.lng ≤ 5 := by
    rw [calculate_distance_self]
    norm_num
  have hd2 : calculate_distance sampleW2.lat sampleW2.lng sampleW2.lat
      sampleW2.lng ≤ 5 := by
    rw [calculate_distance_self]
    norm_num
  have hd3 : calculate_distance sampleW3.lat sampleW3.lng sampleW3.lat
      sampleW3.lng ≤ 5 := by
    rw [calculate_distance_self]
    norm_num
  exact live_tick_spec.2.2 false stNavigating sampleRoute sampleW1 sampleW2
    sampleW3 ⟨sampleW1.lat, sampleW1.lng, 0, 0⟩ ⟨sampleW2.lat, sampleW2.lng, 0, 0⟩
    ⟨sampleW3.lat, sampleW3.lng, 0, 0⟩ rfl rfl rfl rfl hd1 hd2 hd3

/-- A session whose instruction index has run past the sample route. -/
def stExhausted : NavState :=
  ⟨true, some sampleRoute, 3, some ⟨0, 0, 0, 0⟩, some sampleLoc⟩

/-- A one-waypoint route and a session freshly started on it. -/
def shortRoute : RouteRow := ⟨3, "短路径", 1, 2, [sampleW1], 50, 60, true⟩

def stShort : NavState := ⟨true, some shortRoute, 0, some ⟨0, 0, 0, 0⟩, some sampleLoc⟩

/-- The destination of the sample route (location id 2). -/
def sampleDest : Location := ⟨2, "图书馆", "学习设施", 39.9052, 116.4084, "", ""⟩

/-- Witness for claim C10's theorem: a successful start establishes the
invariant, the exhausted tick is a no-op, a tick advances by at most one,
and arrival on a 1-waypoint route needs (exactly) one report. -/
theorem index_invariant_spec_witness :
    (start_navigation_to_destination true [sampleLoc] [sampleRoute] 0 stAtOrigin
        sampleDest).1.current_instruction_index ≤
      sampleRoute.waypoints.length ∧
    check_navigation_progress false stExhausted ⟨0, 0, 0, 0⟩ = (stExhausted, []) ∧
    (on_location_update false stExhausted 0 0 0 0).1.current_instruction_index ≤
      stExhausted.current_instruction_index + 1 ∧
    shortRoute.waypoints.length ≤
      ([⟨sampleW1.lat, sampleW1.lng, 0, 0⟩] : List Position).length := by
  have hstart : (start_navigation_to_destination true [sampleLoc] [sampleRoute] 0
      stAtOrigin sampleDest).1.current_route = some sampleRoute := by
    unfold start_navigation_to_destination
    dsimp only
    rw [show find_nearest_location [sampleLoc]
        (resolved_position 0 stAtOrigin).latitude
        (resolved_position 0 stAtOrigin).longitude = some sampleLoc from rfl]
    dsimp only
    rw [show get_route [sampleRoute] sampleLoc.id sampleDest.id =
        some sampleRoute from get_route_sample]
    rfl
  have harr : (run_updates false stShort
      [⟨sampleW1.lat, sampleW1.lng, 0, 0⟩]).1.is_navigating = false := by
    have hd : calculate_distance sampleW1.lat sampleW1.lng sampleW1.lat
        sampleW1.lng ≤ 5 := by
      rw [calculate_distance_self]
      norm_num
    have t := tick_advance_last false stShort sampleW1.lat sampleW1.lng 0 0
      shortRoute sampleW1 rfl rfl rfl hd rfl
    have hr : run_updates false stShort [⟨sampleW1.lat, sampleW1.lng, 0, 0⟩] =
        ((on_location_update false stShort sampleW1.lat sampleW1.lng 0 0).1,
         (on_location_update false stShort sampleW1.lat sampleW1.lng 0 0).2 ++ []) :=
      rfl
    rw [hr, t]
  refine ⟨?_, ?_, ?_, ?_⟩
  · exact index_invariant_spec.1 true [sampleLoc] [sampleRoute] 0 stAtOrigin
      sampleDest (fun r h => nomatch h) sampleRoute hstart
  · exact index_invariant_spec.2.1 false stExhausted ⟨0, 0, 0, 0⟩ sampleRoute rfl
      (Nat.le_refl 3)
  · exact (index_invariant_spec.2.2.1 false stExhausted 0 0 0 0).1
  · exact index_invariant_spec.2.2.2 false shortRoute stShort
      [⟨sampleW1.lat, sampleW1.lng, 0, 0⟩] rfl rfl rfl harr

end PyMobile

namespace PyMobile

/-! ## Synthetic driver (claims C2, C9) -/

/-- Recognise a synthetic-driver timer delay among the emitted events. -/
def Event.isTimer : Event → Bool
  | .timer_delay _ => true
  | _ => false

/-- Complete characterisation of one synthetic playback run over a
non-empty waypoint list: every waypoint's instruction is announced once,
in list order, with no distance condition; the waypoints are separated by
3-second timer delays; the run ends with the navigating flag cleared and
the synthetic position sitting on the last waypoint (the stored sample's
accuracy and timestamp are kept by the in-place update). -/
theorem update_instruction_run (gps : Bool) :
    ∀ (ws : List Waypoint) (st : NavState) (pos : Position),
      st.is_navigating = true → st.current_location = some pos → ws ≠ [] →
      instr_texts (update_instruction gps st ws).2 = ws.map instruction_text ∧
      countInstructions (update_instruction gps st ws).2 = ws.length ∧
      ((update_instruction gps st ws).2.filter Event.isTimer).length =
        ws.length - 1 ∧
      (∀ s : ℝ, Event.timer_delay s ∈ (update_instruction gps st ws).2 → s = 3) ∧
      (update_instruction gps st ws).1.is_navigating = false ∧
      (∃ wlast, ws.getLast? = some wlast ∧
        (update_instruction gps st ws).1.current_location =
          some ⟨wlast.lat, wlast.lng, pos.accuracy, pos.timestamp⟩) := by
  intro ws
  induction ws with
  | nil => intro st pos _ _ hne; exact absurd rfl hne
  | cons w rest ih =>
    intro st pos hnav hloc hne
    rw [update_instruction.eq_2]
    rw [if_neg (by simp [hnav]), hloc]
    dsimp only
    by_cases hrest : rest = []
    · subst hrest
      rw [if_pos (show ([] : List Waypoint).isEmpty = true from rfl)]
      refine ⟨?_, ?_, ?_, ?_, by simp [on_arrival], w, rfl, by simp [on_arrival]⟩
      · cases gps <;> simp [instr_texts, on_arrival]
      · cases gps <;> simp [countInstructions, on_arrival, Event.isInstruction]
      · cases gps <;> simp [on_arrival, Event.isTimer]
      · intro s hs
        cases gps <;> simp [on_arrival] at hs
    · rw [if_neg (by simpa [List.isEmpty_iff] using hrest)]
      dsimp only
      obtain ⟨htexts, hcount, htimer, htimer3, hnav', wlast, hlast, hlocend⟩ :=
        ih {st with current_location := some ⟨w.lat, w.lng, pos.accuracy, pos.timestamp⟩}
          ⟨w.lat, w.lng, pos.accuracy, pos.timestamp⟩ hnav rfl hrest
      have hpos : 1 ≤ rest.length := List.length_pos.mpr hrest
      refine ⟨?_, ?_, ?_, ?_, hnav', wlast, ?_, hlocend⟩
      · simp only [instr_texts, List.filterMap_cons] at htexts ⊢
        rw [htexts]
        rfl
      · simp only [countInstructions, List.filter_cons] at hcount ⊢
        simp only [Event.isInstruction] at hcount ⊢
        simp [hcount]
      · simp [Event.isTimer, htimer, List.length_cons]
        omega
      · intro s hs
        rcases List.mem_cons.mp hs with h | hs
        · cases h
        · rcases List.mem_cons.mp hs with h | hs
          · injection h with h
          · exact htimer3 s hs
      · obtain ⟨w2, rest2, rfl⟩ := List.exists_cons_of_ne_nil hrest
        rw [List.getLast?_cons_cons]
        exact hlast

end PyMobile

namespace PyMobile

/-- Claim C2 (amended: the route must have at least one waypoint): driven
by the synthetic driver, a session navigating an n-waypoint route (n ≥ 1)
emits exactly the n waypoint instructions, in order, one per fixed
3-second timer step, with no distance threshold involved (no distance
hypothesis appears); the synthetic position ends on the last waypoint's
coordinate and the session ends no longer navigating (arrived). -/
theorem synthetic_driver_spec :
    ∀ (gps : Bool) (st : NavState) (r : RouteRow) (pos : Position),
      st.is_navigating = true → st.current_route = some r →
      st.current_location = some pos → r.waypoints ≠ [] →
      instr_texts (simulate_navigation gps st).2 =
        r.waypoints.map instruction_text ∧
      countInstructions (simulate_navigation gps st).2 = r.waypoints.length ∧
      ((simulate_navigation gps st).2.filter Event.isTimer).length =
        r.waypoints.length - 1 ∧
      (∀ s : ℝ, Event.timer_delay s ∈ (simulate_navigation gps st).2 → s = 3) ∧
      (simulate_navigation gps st).1.is_navigating = false ∧
      (∃ wlast, r.waypoints.getLast? = some wlast ∧
        (simulate_navigation gps st).1.current_location =
          some ⟨wlast.lat, wlast.lng, pos.accuracy, pos.timestamp⟩) := by
  intro gps st r pos hnav hroute hloc hne
  have heq : simulate_navigation gps st = update_instruction gps st r.waypoints := by
    unfold simulate_navigation
    rw [hroute]
    dsimp only
    rw [if_neg (by simp [hnav])]
  rw [heq]
  exact update_instruction_run gps r.waypoints st pos hnav hloc hne

/-- A route whose decoded waypoint list is empty. -/
def emptyRoute : RouteRow := ⟨4, "空路径", 1, 2, [], 0, 0, true⟩

/-- A session navigating the empty route. -/
def stEmptyRoute : NavState :=
  ⟨true, some emptyRoute, 0, some ⟨0, 0, 0, 0⟩, some sampleLoc⟩

/-- Counterexample for claim C2 as stated: on a 0-waypoint route the
synthetic driver emits nothing and returns immediately, leaving the
session still navigating — it does not end in `Arrived`, contradicting
"for an n-waypoint route this emits exactly n instruction events and ends
in Arrived" at n = 0. -/
theorem synthetic_driver_empty_counterexample :
    simulate_navigation false stEmptyRoute = (stEmptyRoute, []) ∧
    countInstructions (simulate_navigation false stEmptyRoute).2 = 0 ∧
    stEmptyRoute.is_navigating = true ∧
    (simulate_navigation false stEmptyRoute).1.is_navigating = true :=
  ⟨rfl, rfl, rfl, rfl⟩

/-- Witness for claim C2's (amended) theorem on the sample 3-waypoint
route. -/
theorem synthetic_driver_spec_witness :
    countInstructions (simulate_navigation false stNavigating).2 = 3 ∧
    (simulate_navigation false stNavigating).1.is_navigating = false ∧
    instr_texts (simulate_navigation false stNavigating).2 =
      ["从主教学楼出发", "向北直行100米", "到达图书馆"] := by
  have h := synthetic_driver_spec false stNavigating sampleRoute
    ⟨39.9040, 116.4070, 5, 0⟩ rfl rfl rfl (List.cons_ne_nil _ _)
  exact ⟨h.2.1, h.2.2.2.2.1, h.1⟩

/-- Claim C9: the synthetic run never writes `current_instruction_index`
— at every point of the playback (every suffix of the waypoint list) the
field still holds its starting value, so a status read during or after a
synthetic run that began at index 0 reports index 0. -/
theorem synthetic_index_frame_spec :
    ∀ (gps : Bool) (st : NavState) (ws : List Waypoint),
      (update_instruction gps st ws).1.current_instruction_index =
        st.current_instruction_index ∧
      (simulate_navigation gps st).1.current_instruction_index =
        st.current_instruction_index ∧
      (st.current_instruction_index = 0 →
        (get_navigation_status
          (update_instruction gps st ws).1).current_instruction_index = 0 ∧
        (get_navigation_status
          (simulate_navigation gps st).1).current_instruction_index = 0) := by
  intro gps st ws
  have h1 := (update_instruction_frame gps ws st).2.1
  have h2 := (simulate_navigation_frame gps st).2.1
  refine ⟨h1, h2, fun h0 => ⟨?_, ?_⟩⟩
  · show (update_instruction gps st ws).1.current_instruction_index = 0
    rw [h1, h0]
  · show (simulate_navigation gps st).1.current_instruction_index = 0
    rw [h2, h0]

/-- Witness for claim C9's theorem: a full synthetic run of the sample
route reports index 0 afterwards. -/
theorem synthetic_index_frame_spec_witness :
    (get_navigation_status
      (simulate_navigation false stNavigating).1).current_instruction_index = 0 :=
  ((synthetic_index_frame_spec false stNavigating sampleRoute.waypoints).2.2 rfl).2

end PyMobile
